import Mathlib

/-!
# Verification of the job-tracking core of the AWS Educational Video Generator

Shallow embedding of the two core source files:

* `src/frontend/src/contexts/chat-history-context.tsx` — the session store
  (`ChatSession`, `createSession`, `appendStatus`, `readStorage`, the persist
  effect).
* `src/frontend/src/components/status-polling.tsx` — the job poller.  The file
  holds two revisions of the `StatusPolling` component; the embedding follows
  the second (v2) revision, the one with history integration (`lastStatusRef`
  deduplication, `appendStatus` timeline entries, `updateSession`), which is
  the revision the specification describes.  React state setters
  (`setStatus`, `setFailureCount`, `setIsPolling`) are modelled as immediate
  updates to an explicit `PollerState`; the outward calls (`appendStatus`,
  `updateSession`, `onSuccess`, `onError`) are modelled as an emitted list of
  `PollEvent`s.
-/

namespace AWSVideoGen

/-! ## Session store data model (`chat-history-context.tsx`) -/

/-- `ChatSession` from `chat-history-context.tsx` (lines 10–17). -/
structure ChatSession where
  id : String
  script : String
  style : String
  createdAt : Nat
  videoUrl : Option String
  statusHistory : List String
deriving DecidableEq

/-- The per-session update performed by `appendStatus` (lines 86–89):
`{ ...session, statusHistory: [...session.statusHistory, status].slice(-50) }`.
`Array.prototype.slice(-50)` keeps the last 50 elements, i.e. drops
`length - 50` elements from the front (all of them kept when shorter). -/
def appendToHistory (status : String) (session : ChatSession) : ChatSession :=
  { session with
    statusHistory :=
      (session.statusHistory ++ [status]).drop
        ((session.statusHistory ++ [status]).length - 50) }

/-- `appendStatus` (lines 82–93): map over the collection, updating the
session whose `id` matches. -/
def appendStatus (sessions : List ChatSession) (id status : String) :
    List ChatSession :=
  sessions.map fun session =>
    if session.id = id then appendToHistory status session else session

/-- The spread `{ ...copy[existingIndex], ...session }` in `createSession`
(line 74).  The incoming value is a complete `ChatSession`, so every field of
the existing entry is overwritten by the corresponding incoming field. -/
def mergeSession (old incoming : ChatSession) : ChatSession :=
  { id := incoming.id
    script := incoming.script
    style := incoming.style
    createdAt := incoming.createdAt
    videoUrl := incoming.videoUrl
    statusHistory := incoming.statusHistory }

/-- The collection update of `createSession` (lines 70–78):
`findIndex` on the id; if found (`!== -1`, here: the index is `< length`)
assign the shallow merge at that index, else prepend `[session, ...prev]`. -/
def createSessionList (prev : List ChatSession) (session : ChatSession) :
    List ChatSession :=
  let existingIndex := prev.findIdx fun item => item.id == session.id
  if existingIndex < prev.length then
    prev.set existingIndex
      (mergeSession (prev.getD existingIndex session) session)
  else
    session :: prev

/-- Provider state: the session collection plus the active-session pointer. -/
structure StoreState where
  sessions : List ChatSession
  activeSessionId : Option String
deriving DecidableEq

/-- `createSession` (lines 69–80): update the collection, then
`setActiveSessionId(session.id)`. -/
def createSession (st : StoreState) (session : ChatSession) : StoreState :=
  { sessions := createSessionList st.sessions session
    activeSessionId := some session.id }

/-! ## Persistence (`readStorage`, lines 36–46, and the persist effect,
lines 55–58) -/

/-- What `window.localStorage.getItem(STORAGE_KEY)` can hold: nothing
(`null`), a JSON serialization of a session array, or a string that
`JSON.parse` rejects. -/
inductive StorageValue
  | absent
  | json (sessions : List ChatSession)
  | malformed
deriving DecidableEq

/-- The fallible part of `readStorage`:
`raw ? (JSON.parse(raw) as ChatSession[]) : []`.  A `null` raw value yields
`[]` without parsing; malformed content makes `JSON.parse` throw (modelled as
`Except.error`); `JSON.stringify` output parses back to the value written. -/
def parseStoredHistory : StorageValue → Except String (List ChatSession)
  | .absent => .ok []
  | .json sessions => .ok sessions
  | .malformed => .error "Unexpected token in JSON"

/-- `parsed.sort((a, b) => b.createdAt - a.createdAt)`: a stable sort placing
larger `createdAt` first (the comparator is `≤ 0` exactly when
`b.createdAt ≤ a.createdAt`). -/
def sortByCreatedAtDesc (l : List ChatSession) : List ChatSession :=
  l.mergeSort fun a b => b.createdAt ≤ a.createdAt

/-- Result of `readStorage`: the rehydrated collection, plus whether
`console.warn` fired. -/
structure ReadOutcome where
  sessions : List ChatSession
  warned : Bool
deriving DecidableEq

/-- `readStorage` (lines 36–46): parse, sort descending by `createdAt`;
on a parse error, warn and fall back to the empty collection. -/
def readStorage (stored : StorageValue) : ReadOutcome :=
  match parseStoredHistory stored with
  | .ok parsed => { sessions := sortByCreatedAtDesc parsed, warned := false }
  | .error _ => { sessions := [], warned := true }

/-- The persist effect (lines 55–58):
`window.localStorage.setItem(STORAGE_KEY, JSON.stringify(sessions))`. -/
def persistSessions (sessions : List ChatSession) : StorageValue :=
  .json sessions

/-! ## Job poller (`status-polling.tsx`, v2 revision, lines 177–264) -/

/-- `JobStatus` (lines 160–164). -/
structure JobStatus where
  status : String
  progress : String
  video_url : Option String
deriving DecidableEq

/-- The component state read and written by `pollStatus`: the `status` and
`isPolling` and `failureCount` state hooks plus the `lastStatusRef` ref. -/
structure PollerState where
  status : Option JobStatus
  isPolling : Bool
  failureCount : Nat
  lastStatus : String
deriving DecidableEq

/-- Initial hook values: `useState<JobStatus | null>(null)`,
`useState(true)`, `useState(0)`, `useRef<string>("")`. -/
def initialPoller : PollerState :=
  { status := none, isPolling := true, failureCount := 0, lastStatus := "" }

/-- Outcome of one `fetch` + `response.json()`: either parsed data, or a
throw (network error, non-2xx `!response.ok`, or a parse failure) carrying
the error message used in the RETRYING entry. -/
inductive FetchOutcome
  | ok (data : JobStatus)
  | fail (errMsg : String)
deriving DecidableEq

/-- The outward calls a poll tick can make: `appendStatus` (a timeline
entry), `updateSession(jobId, { videoUrl })`, `onSuccess`, `onError`. -/
inductive PollEvent
  | timeline (jobId entry : String)
  | sessionVideoUrl (jobId url : String)
  | success (url : String)
  | failure (msg : String)
deriving DecidableEq

/-- `data.status.replace(/_/g, " ")` (line 206). -/
def readableStatus (status : String) : String :=
  String.map (fun c => if c = '_' then ' ' else c) status

/-- The dedup key: `` `${data.status}-${data.progress}` `` (line 207). -/
def statusKey (data : JobStatus) : String :=
  data.status ++ "-" ++ data.progress

/-- The body of `pollStatus` after the `fetch` settles (lines 196–249):
the remainder of the `try` block on a parsed response, the `catch` block on a
throw.  `now` stands for `new Date().toLocaleTimeString()`.  JS truthiness is
preserved: `if (data.video_url)` is false for both `null` and `""`, and
`data.progress || "Video generation failed"` falls back on `""`. -/
def processResponse (now jobId : String) (s : PollerState)
    (r : FetchOutcome) : PollerState × List PollEvent :=
  match r with
  | .ok data =>
      let s1 : PollerState := { s with status := some data, failureCount := 0 }
      let key := statusKey data
      let dedup : PollerState × List PollEvent :=
        if key ≠ s1.lastStatus then
          ({ s1 with lastStatus := key },
            [.timeline jobId
              (now ++ " • " ++ readableStatus data.status ++ " — "
                ++ data.progress)])
        else (s1, [])
      let s2 := dedup.1
      let evs := dedup.2
      if data.status = "COMPLETED" then
        match data.video_url with
        | some url =>
            if url = "" then
              ({ s2 with isPolling := false },
                evs ++ [.failure "Video generation completed but no URL provided"])
            else
              ({ s2 with isPolling := false },
                evs ++ [.sessionVideoUrl jobId url, .success url])
        | none =>
            ({ s2 with isPolling := false },
              evs ++ [.failure "Video generation completed but no URL provided"])
      else if data.status = "FAILED" then
        let failureMessage :=
          if data.progress = "" then "Video generation failed" else data.progress
        ({ s2 with isPolling := false },
          evs ++ [.failure failureMessage,
            .timeline jobId (now ++ " • FAILED — " ++ failureMessage)])
      else (s2, evs)
  | .fail errMsg =>
      let evs := [PollEvent.timeline jobId (now ++ " • RETRYING — " ++ errMsg)]
      let nextFailures := s.failureCount + 1
      if nextFailures > 10 then
        ({ s with failureCount := nextFailures, isPolling := false },
          evs ++ [.failure "Connection lost. Please try again."])
      else
        ({ s with failureCount := nextFailures }, evs)

/-- One timer tick in the sequential regime (each response processed before
the next tick fires).  While `isPolling` holds the effect is mounted, the
interval fires and `pollStatus` runs; once `isPolling` is false the effect
body returns early (line 193) and its cleanup has cleared the interval
(line 255), so nothing runs. -/
def tick (now jobId : String) (s : PollerState) (r : FetchOutcome) :
    PollerState × List PollEvent :=
  if s.isPolling then processResponse now jobId s r else (s, [])

/-- A sequential polling run: fold `tick` over a list of
(timestamp, fetch outcome) pairs, concatenating the emitted events. -/
def runPoll (jobId : String) :
    PollerState → List (String × FetchOutcome) → PollerState × List PollEvent
  | s, [] => (s, [])
  | s, (now, r) :: rest =>
      let step := tick now jobId s r
      let next := runPoll jobId step.1 rest
      (next.1, step.2 ++ next.2)

/-- Number of status requests issued during a sequential run: a tick issues
its `fetch` exactly when the interval is still alive (`isPolling`). -/
def fetchCount (jobId : String) :
    PollerState → List (String × FetchOutcome) → Nat
  | _, [] => 0
  | s, (now, r) :: rest =>
      (if s.isPolling then 1 else 0) + fetchCount jobId (tick now jobId s r).1 rest

/-- Terminal callbacks (`onSuccess` / `onError`). -/
def PollEvent.isTerminal : PollEvent → Bool
  | .success _ => true
  | .failure _ => true
  | _ => false

/-- Timeline (`appendStatus`) events. -/
def PollEvent.isTimeline : PollEvent → Bool
  | .timeline _ _ => true
  | _ => false

/-- `updateSession(jobId, { videoUrl })` events. -/
def PollEvent.isSessionVideoUrl : PollEvent → Bool
  | .sessionVideoUrl _ _ => true
  | _ => false

/-- The terminal callbacks among a run's emitted events. -/
def terminalEvents (evs : List PollEvent) : List PollEvent :=
  evs.filter PollEvent.isTerminal

/-- Number of timeline entries among a run's emitted events. -/
def timelineCount (evs : List PollEvent) : Nat :=
  (evs.filter PollEvent.isTimeline).length

/-! ## Asynchronous (event-loop) model of the poller

`setInterval(pollStatus, 3000)` (line 252) invokes the `async` function
`pollStatus` on every tick with no in-flight guard; `pollStatus` suspends at
`await fetch(...)`, and the remainder of its body runs whenever that promise
settles — also after the effect has been cleaned up, since `clearInterval`
cancels future ticks but not an already-suspended continuation.  A step is
either `issue i` (an interval tick starts fetch number `i`; possible exactly
while the effect is mounted, `isPolling = true`) or `resolve i now r` (fetch
number `i` settles and the continuation runs against the current state —
`pollStatus` itself never re-checks `isPolling`).  The steps used below only
exercise the `try`-branch continuation, which reads no stale closure state:
it reads `lastStatusRef` (a ref, always current) and the response data. -/

inductive AsyncStep
  | issue (i : Nat)
  | resolve (i : Nat) (now : String) (r : FetchOutcome)
deriving DecidableEq

/-- Poller state plus the identities of issued and settled fetches. -/
structure AsyncState where
  poller : PollerState
  issued : List Nat
  resolved : List Nat
deriving DecidableEq

def initialAsync : AsyncState :=
  { poller := initialPoller, issued := [], resolved := [] }

/-- One event-loop step; `none` marks a step the code cannot take (a tick
while the interval is cancelled, a duplicate fetch id, a response that was
never requested or already settled). -/
def asyncStep (jobId : String) (st : AsyncState) (step : AsyncStep) :
    Option (AsyncState × List PollEvent) :=
  match step with
  | .issue i =>
      if st.poller.isPolling ∧ i ∉ st.issued then
        some ({ st with issued := st.issued ++ [i] }, [])
      else none
  | .resolve i now r =>
      if i ∈ st.issued ∧ i ∉ st.resolved then
        let step := processResponse now jobId st.poller r
        some ({ st with poller := step.1, resolved := st.resolved ++ [i] },
          step.2)
      else none

/-- Run a schedule of event-loop steps; `none` if any step is impossible. -/
def asyncRun (jobId : String) :
    AsyncState → List AsyncStep → Option (AsyncState × List PollEvent)
  | st, [] => some (st, [])
  | st, step :: rest =>
      match asyncStep jobId st step with
      | none => none
      | some (st1, evs) =>
          match asyncRun jobId st1 rest with
          | none => none
          | some (st2, evs2) => some (st2, evs ++ evs2)

/-- Fetches issued but not yet settled. -/
def inFlightCount (st : AsyncState) : Nat :=
  (st.issued.filter fun i => ¬ i ∈ st.resolved).length

/-- A concrete stored session used by the C6 witness. -/
def demoExisting : ChatSession :=
  { id := "abc123", script := "old", style := "2d", createdAt := 1,
    videoUrl := none, statusHistory := [] }

/-- A concrete re-created session with the same id, used by the C6 witness. -/
def demoIncoming : ChatSession :=
  { id := "abc123", script := "new", style := "3d", createdAt := 2,
    videoUrl := some "https://x/video.mp4", statusHistory := ["Queued job"] }

/-- A concrete store used by the C6 witness. -/
def demoStore : StoreState :=
  { sessions := [demoExisting], activeSessionId := none }

/-! ## Store lemmas -/

theorem appendToHistory_length_le (entry : String) (s : ChatSession) :
    (appendToHistory entry s).statusHistory.length ≤ 50 := by
  simp only [appendToHistory, List.length_drop]
  omega

theorem appendStatus_preserves_cap (sessions : List ChatSession)
    (id status : String)
    (h : ∀ s ∈ sessions, s.statusHistory.length ≤ 50) :
    ∀ s ∈ appendStatus sessions id status, s.statusHistory.length ≤ 50 := by
  intro s hs
  simp only [appendStatus, List.mem_map] at hs
  obtain ⟨t, ht, rfl⟩ := hs
  by_cases hid : t.id = id
  · simpa [hid] using appendToHistory_length_le status t
  · simpa [hid] using h t ht

theorem foldl_appendStatus_cap (calls : List (String × String)) :
    ∀ sessions : List ChatSession,
      (∀ s ∈ sessions, s.statusHistory.length ≤ 50) →
      ∀ s ∈ calls.foldl (fun acc c => appendStatus acc c.1 c.2) sessions,
        s.statusHistory.length ≤ 50 := by
  induction calls with
  | nil => intro sessions h; simpa using h
  | cons c rest ih =>
      intro sessions h
      exact ih _ (appendStatus_preserves_cap sessions c.1 c.2 h)

theorem appendToHistory_evicts (entry : String) (s : ChatSession)
    (h : s.statusHistory.length = 50) :
    (appendToHistory entry s).statusHistory
      = s.statusHistory.tail ++ [entry] := by
  have hlen : (s.statusHistory ++ [entry]).length - 50 = 1 := by
    simp [h]
  simp only [appendToHistory, hlen]
  rw [List.drop_append_of_le_length (by omega), List.drop_one]

theorem mergeSession_eq (old incoming : ChatSession) :
    mergeSession old incoming = incoming := by
  cases incoming; rfl

theorem list_set_getElem_self {α : Type _} (l : List α) (i : Nat)
    (h : i < l.length) : l.set i l[i] = l := by
  apply List.ext_getElem?
  intro n
  rw [List.getElem?_set]
  split
  · next heq => subst heq; simp [h, List.getElem?_eq_getElem h]
  · rfl

theorem createSessionList_found (prev : List ChatSession) (s : ChatSession)
    (hmem : s.id ∈ prev.map ChatSession.id) :
    (createSessionList prev s).map ChatSession.id = prev.map ChatSession.id
    ∧ s ∈ createSessionList prev s := by
  obtain ⟨x, hx, hxid⟩ := List.mem_map.mp hmem
  have hex : ∃ y ∈ prev, (y.id == s.id) = true := ⟨x, hx, by simp [hxid]⟩
  have hi : (prev.findIdx fun item => item.id == s.id) < prev.length :=
    List.findIdx_lt_length_of_exists hex
  have hi2 : (prev.findIdx fun item => item.id == s.id)
      < (prev.map ChatSession.id).length := by
    rw [List.length_map]; exact hi
  have hfound :
      (prev[prev.findIdx fun item => item.id == s.id]).id = s.id := by
    have := @List.findIdx_getElem _ (fun item => item.id == s.id) prev hi
    simpa using this
  have hlist : createSessionList prev s
      = prev.set (prev.findIdx fun item => item.id == s.id) s := by
    simp only [createSessionList, if_pos hi, mergeSession_eq]
  constructor
  · rw [hlist, List.map_set]
    have hmapi :
        (prev.map ChatSession.id)[prev.findIdx fun item => item.id == s.id]
          = s.id := by
      rw [List.getElem_map]
      exact hfound
    have hself := list_set_getElem_self (prev.map ChatSession.id) _ hi2
    rw [hmapi] at hself
    exact hself
  · rw [hlist]
    exact List.mem_set prev _ hi s

theorem createSessionList_fresh (prev : List ChatSession) (s : ChatSession)
    (hmem : s.id ∉ prev.map ChatSession.id) :
    createSessionList prev s = s :: prev := by
  have hall : ∀ x ∈ prev, (x.id == s.id) = false := by
    intro x hx
    have : x.id ≠ s.id := fun he => hmem (List.mem_map.mpr ⟨x, hx, he⟩)
    simpa using this
  have hidx : (prev.findIdx fun item => item.id == s.id) = prev.length :=
    List.findIdx_eq_length.mpr hall
  simp only [createSessionList, hidx, lt_self_iff_false, if_false]

/-! ## Claim theorems: session store -/

/-- Claim C5: for every session collection and every sequence of
`appendStatus` calls, each session's `statusHistory` length never exceeds 50;
appending an entry to a history that already holds 50 entries evicts exactly
the oldest entry, with the order of the remaining entries preserved and the
new entry last. -/
theorem appendStatus_cap_and_eviction
    (sessions : List ChatSession) (calls : List (String × String))
    (hinit : ∀ s ∈ sessions, s.statusHistory.length ≤ 50) :
    (∀ s ∈ calls.foldl (fun acc c => appendStatus acc c.1 c.2) sessions,
        s.statusHistory.length ≤ 50)
    ∧ ∀ (s : ChatSession) (entry : String), s.statusHistory.length = 50 →
        (appendToHistory entry s).statusHistory
          = s.statusHistory.tail ++ [entry] :=
  ⟨foldl_appendStatus_cap calls sessions hinit,
    fun s entry h => appendToHistory_evicts entry s h⟩

/-- Witness for C5 at a concrete 50-entry history. -/
theorem appendStatus_cap_and_eviction_witness :
    (appendToHistory "entry51"
        { id := "abc123", script := "", style := "", createdAt := 0,
          videoUrl := none,
          statusHistory := List.replicate 50 "entry" }).statusHistory
      = (List.replicate 50 "entry").tail ++ ["entry51"] :=
  (appendStatus_cap_and_eviction [] [] (by simp)).2
    { id := "abc123", script := "", style := "", createdAt := 0,
      videoUrl := none, statusHistory := List.replicate 50 "entry" }
    "entry51" (by simp)

/-- Claim C6: on a collection with pairwise-distinct ids, `createSession s`
makes `s.id` the active session; when `s.id` already exists it overwrites the
existing entry in place (the id sequence is unchanged, so no duplicate entry
appears and ids stay pairwise distinct) and the merged entry carries `s`'s
fields; when `s.id` is unseen it inserts `s` at the front. -/
theorem createSession_merges_without_duplicate
    (st : StoreState) (s : ChatSession)
    (hnodup : (st.sessions.map ChatSession.id).Nodup) :
    (createSession st s).activeSessionId = some s.id
    ∧ ((createSession st s).sessions.map ChatSession.id).Nodup
    ∧ (s.id ∈ st.sessions.map ChatSession.id →
        (createSession st s).sessions.map ChatSession.id
            = st.sessions.map ChatSession.id
        ∧ s ∈ (createSession st s).sessions)
    ∧ (s.id ∉ st.sessions.map ChatSession.id →
        (createSession st s).sessions = s :: st.sessions) := by
  refine ⟨rfl, ?_, ?_, ?_⟩
  · by_cases hmem : s.id ∈ st.sessions.map ChatSession.id
    · have := (createSessionList_found st.sessions s hmem).1
      simpa [createSession, this] using hnodup
    · have := createSessionList_fresh st.sessions s hmem
      simp only [createSession, this, List.map_cons, List.nodup_cons]
      exact ⟨hmem, hnodup⟩
  · intro hmem
    exact createSessionList_found st.sessions s hmem
  · intro hmem
    exact createSessionList_fresh st.sessions s hmem

/-- Witness for C6 at a concrete collection holding the id already. -/
theorem createSession_merges_without_duplicate_witness :
    (createSession demoStore demoIncoming).activeSessionId
        = some demoIncoming.id
    ∧ ((createSession demoStore demoIncoming).sessions.map
        ChatSession.id).Nodup
    ∧ (demoIncoming.id ∈ demoStore.sessions.map ChatSession.id →
        (createSession demoStore demoIncoming).sessions.map ChatSession.id
            = demoStore.sessions.map ChatSession.id
        ∧ demoIncoming ∈ (createSession demoStore demoIncoming).sessions)
    ∧ (demoIncoming.id ∉ demoStore.sessions.map ChatSession.id →
        (createSession demoStore demoIncoming).sessions
          = demoIncoming :: demoStore.sessions) :=
  createSession_merges_without_duplicate demoStore demoIncoming (by decide)

/-- Claim C8: persisting the full collection and rehydrating it restores a
permutation of the very same sessions, iterated in descending `createdAt`
order (the sort is applied once, inside `readStorage`, at load time), and
surfaces no warning. -/
theorem readStorage_persist_roundtrip (sessions : List ChatSession) :
    (readStorage (persistSessions sessions)).warned = false
    ∧ (readStorage (persistSessions sessions)).sessions.Perm sessions
    ∧ List.Sorted (fun a b => b.createdAt ≤ a.createdAt)
        (readStorage (persistSessions sessions)).sessions := by
  have hread : readStorage (persistSessions sessions)
      = { sessions := sortByCreatedAtDesc sessions, warned := false } := rfl
  refine ⟨by rw [hread], ?_, ?_⟩
  · rw [hread]
    exact List.mergeSort_perm sessions _
  · rw [hread]
    have htrans : ∀ a b c : ChatSession,
        (decide (b.createdAt ≤ a.createdAt)) = true →
        (decide (c.createdAt ≤ b.createdAt)) = true →
        (decide (c.createdAt ≤ a.createdAt)) = true := by
      intro a b c hab hbc
      simp only [decide_eq_true_eq] at *
      omega
    have htot : ∀ a b : ChatSession,
        ((decide (b.createdAt ≤ a.createdAt))
          || (decide (a.createdAt ≤ b.createdAt))) = true := by
      intro a b
      simp only [Bool.or_eq_true, decide_eq_true_eq]
      omega
    have hs := @List.sorted_mergeSort ChatSession
      (fun a b => decide (b.createdAt ≤ a.createdAt)) htrans htot sessions
    exact List.Pairwise.imp (fun h => by simpa using h) hs

/-- Claim C9: whenever reading the persisted state fails to parse,
`readStorage` returns the empty collection and surfaces a warning instead of
propagating the error. -/
theorem readStorage_malformed_empty (stored : StorageValue) (msg : String)
    (h : parseStoredHistory stored = .error msg) :
    readStorage stored = { sessions := [], warned := true } := by
  simp [readStorage, h]

/-- Witness for C9 at the malformed stored value. -/
theorem readStorage_malformed_empty_witness :
    readStorage .malformed = { sessions := [], warned := true } :=
  readStorage_malformed_empty .malformed "Unexpected token in JSON" rfl

/-! ## Poller lemmas -/

theorem timelineCount_append (a b : List PollEvent) :
    timelineCount (a ++ b) = timelineCount a + timelineCount b := by
  simp [timelineCount, List.filter_append]

theorem terminalEvents_append (a b : List PollEvent) :
    terminalEvents (a ++ b) = terminalEvents a ++ terminalEvents b := by
  simp [terminalEvents, List.filter_append]

theorem tick_not_polling (now jobId : String) (s : PollerState)
    (r : FetchOutcome) (h : s.isPolling = false) :
    tick now jobId s r = (s, []) := by
  simp [tick, h]

theorem runPoll_not_polling (jobId : String) (s : PollerState)
    (h : s.isPolling = false) :
    ∀ rs, runPoll jobId s rs = (s, []) := by
  intro rs
  induction rs with
  | nil => rfl
  | cons a rest ih =>
      obtain ⟨now, r⟩ := a
      simp [runPoll, tick_not_polling now jobId s r h, ih]

theorem fetchCount_not_polling (jobId : String) (s : PollerState)
    (h : s.isPolling = false) :
    ∀ rs, fetchCount jobId s rs = 0 := by
  intro rs
  induction rs with
  | nil => rfl
  | cons a rest ih =>
      obtain ⟨now, r⟩ := a
      simp [fetchCount, h, tick_not_polling now jobId s r h, ih]

theorem tick_fail_under_threshold (now jobId m : String) (s : PollerState)
    (hpoll : s.isPolling = true) (hcount : s.failureCount + 1 ≤ 10) :
    tick now jobId s (.fail m)
      = ({ s with failureCount := s.failureCount + 1 },
          [.timeline jobId (now ++ " • RETRYING — " ++ m)]) := by
  simp only [tick, hpoll, if_true, processResponse]
  rw [if_neg (by omega)]

theorem tick_fail_at_threshold (now jobId m : String) (s : PollerState)
    (hpoll : s.isPolling = true) (hcount : s.failureCount = 10) :
    tick now jobId s (.fail m)
      = ({ s with failureCount := 11, isPolling := false },
          [.timeline jobId (now ++ " • RETRYING — " ++ m),
            .failure "Connection lost. Please try again."]) := by
  simp only [tick, hpoll, if_true, processResponse]
  rw [if_pos (by omega)]
  simp [hcount]

theorem runPoll_consecutive_failures (jobId : String)
    (msgs : List (String × String)) :
    ∀ s : PollerState, s.isPolling = true →
      s.failureCount + msgs.length ≤ 10 →
      (runPoll jobId s (msgs.map fun m =>
          (m.1, FetchOutcome.fail m.2))).1.failureCount
          = s.failureCount + msgs.length
      ∧ (runPoll jobId s (msgs.map fun m =>
          (m.1, FetchOutcome.fail m.2))).1.isPolling = true
      ∧ terminalEvents (runPoll jobId s (msgs.map fun m =>
          (m.1, FetchOutcome.fail m.2))).2 = [] := by
  induction msgs with
  | nil =>
      intro s h1 h2
      exact ⟨by simp [runPoll], by simp [runPoll, h1], rfl⟩
  | cons m rest ih =>
      intro s h1 h2
      simp only [List.length_cons] at h2
      have hstep := tick_fail_under_threshold m.1 jobId m.2 s h1 (by omega)
      obtain ⟨ih1, ih2, ih3⟩ :=
        ih { s with failureCount := s.failureCount + 1 }
          (by simp [h1]) (by simp; omega)
      simp only [List.map_cons, runPoll, hstep]
      refine ⟨?_, ?_, ?_⟩
      · rw [ih1]; simp; omega
      · exact ih2
      · rw [terminalEvents_append, ih3]
        simp [terminalEvents, PollEvent.isTerminal]

theorem runPoll_append (jobId : String)
    (xs ys : List (String × FetchOutcome)) :
    ∀ s : PollerState,
      runPoll jobId s (xs ++ ys)
        = ((runPoll jobId (runPoll jobId s xs).1 ys).1,
            (runPoll jobId s xs).2
              ++ (runPoll jobId (runPoll jobId s xs).1 ys).2) := by
  induction xs with
  | nil => intro s; simp [runPoll]
  | cons a rest ih =>
      intro s
      obtain ⟨now, r⟩ := a
      simp [runPoll, ih, List.append_assoc]

theorem tick_new_key (now jobId st p : String) (u : Option String)
    (s : PollerState) (hpoll : s.isPolling = true)
    (hlast : s.lastStatus ≠ st ++ "-" ++ p) :
    timelineCount (tick now jobId s
        (.ok { status := st, progress := p, video_url := u })).2
      = (if st = "FAILED" then 2 else 1)
    ∧ (tick now jobId s
        (.ok { status := st, progress := p, video_url := u })).1.lastStatus
      = st ++ "-" ++ p
    ∧ (st = "FAILED" →
        (tick now jobId s
          (.ok { status := st, progress := p, video_url := u })).1.isPolling
          = false) := by
  have hne : statusKey { status := st, progress := p, video_url := u }
      ≠ s.lastStatus := Ne.symm (by simpa [statusKey] using hlast)
  by_cases hF : st = "FAILED"
  · subst hF
    refine ⟨?_, ?_, fun _ => ?_⟩ <;>
      simp_all [tick, processResponse, statusKey, timelineCount,
        PollEvent.isTimeline]
  · by_cases hC : st = "COMPLETED"
    · subst hC
      rcases u with _ | url
      · refine ⟨?_, ?_, fun hcon => ?_⟩ <;>
          simp_all [tick, processResponse, statusKey,
            timelineCount, PollEvent.isTimeline]
      · by_cases hurl : url = "" <;>
          refine ⟨?_, ?_, fun hcon => ?_⟩ <;>
            simp_all [tick, processResponse, statusKey,
              timelineCount, PollEvent.isTimeline]
    · refine ⟨?_, ?_, fun hcon => ?_⟩ <;>
        simp_all [tick, processResponse, statusKey,
          timelineCount, PollEvent.isTimeline]

theorem tick_same_key (now jobId st p : String) (u : Option String)
    (s : PollerState) (hpoll : s.isPolling = true)
    (hst : st ≠ "FAILED")
    (hlast : s.lastStatus = st ++ "-" ++ p) :
    timelineCount (tick now jobId s
        (.ok { status := st, progress := p, video_url := u })).2 = 0
    ∧ (tick now jobId s
        (.ok { status := st, progress := p, video_url := u })).1.lastStatus
      = st ++ "-" ++ p := by
  have heq : statusKey { status := st, progress := p, video_url := u }
      = s.lastStatus := by simp [statusKey, hlast]
  by_cases hC : st = "COMPLETED"
  · subst hC
    rcases u with _ | url
    · constructor <;>
        simp_all [tick, hpoll, processResponse, statusKey, timelineCount,
          PollEvent.isTimeline]
    · by_cases hurl : url = "" <;>
        constructor <;>
          simp_all [tick, hpoll, processResponse, statusKey, timelineCount,
            PollEvent.isTimeline]
  · constructor <;>
      simp_all [tick, hpoll, processResponse, statusKey, timelineCount,
        PollEvent.isTimeline]

theorem runPoll_same_key_no_timeline (jobId st p : String)
    (hst : st ≠ "FAILED") (ticks : List (String × Option String)) :
    ∀ s : PollerState, s.lastStatus = st ++ "-" ++ p →
      timelineCount (runPoll jobId s (ticks.map fun t =>
          (t.1, FetchOutcome.ok { status := st, progress := p, video_url := t.2 }))).2 = 0 := by
  induction ticks with
  | nil => intro s h; rfl
  | cons t rest ih =>
      intro s h
      by_cases hp : s.isPolling = true
      · obtain ⟨h0, hkeep⟩ := tick_same_key t.1 jobId st p t.2 s hp hst h
        simp only [List.map_cons, runPoll, timelineCount_append]
        rw [h0, ih _ hkeep]
      · have hp2 : s.isPolling = false := by
          cases hb : s.isPolling
          · rfl
          · exact absurd hb hp
        simp only [List.map_cons, runPoll,
          tick_not_polling t.1 jobId s _ hp2, timelineCount_append]
        rw [ih s h]
        rfl

/-! ## Claim theorems: poller -/

/-- Claim C2: starting from a polling state with a zeroed failure counter,
eleven consecutive transport failures emit exactly one terminal event — the
failure `Connection lost. Please try again.` — and none within the first ten
ticks (so it fires on the eleventh); afterwards polling has stopped and no
further status request is issued whatever comes next. -/
theorem pollStatus_connection_lost_after_eleven_failures
    (jobId : String) (s : PollerState) (msgs : List (String × String))
    (more : List (String × FetchOutcome))
    (hpoll : s.isPolling = true) (hcount : s.failureCount = 0)
    (hlen : msgs.length = 11) :
    terminalEvents
        (runPoll jobId s (msgs.map fun m => (m.1, FetchOutcome.fail m.2))).2
        = [.failure "Connection lost. Please try again."]
    ∧ terminalEvents
        (runPoll jobId s ((msgs.take 10).map fun m =>
          (m.1, FetchOutcome.fail m.2))).2 = []
    ∧ (runPoll jobId s (msgs.map fun m =>
          (m.1, FetchOutcome.fail m.2))).1.isPolling = false
    ∧ fetchCount jobId
        (runPoll jobId s (msgs.map fun m => (m.1, FetchOutcome.fail m.2))).1
        more = 0 := by
  obtain ⟨hfc, hip, hterm0⟩ :=
    runPoll_consecutive_failures jobId (msgs.take 10) s hpoll
      (by rw [List.length_take]; omega)
  have hlen1 : (msgs.drop 10).length = 1 := by
    rw [List.length_drop]; omega
  obtain ⟨mlast, hml⟩ := List.length_eq_one.mp hlen1
  have hfull : msgs.map (fun m => (m.1, FetchOutcome.fail m.2))
      = ((msgs.take 10).map fun m => (m.1, FetchOutcome.fail m.2))
        ++ [(mlast.1, FetchOutcome.fail mlast.2)] := by
    conv_lhs => rw [← List.take_append_drop 10 msgs]
    rw [List.map_append, hml]
    rfl
  have hfc10 :
      (runPoll jobId s ((msgs.take 10).map fun m =>
        (m.1, FetchOutcome.fail m.2))).1.failureCount = 10 := by
    rw [hfc, hcount, List.length_take]
    omega
  have hlasttick := tick_fail_at_threshold mlast.1 jobId mlast.2
    (runPoll jobId s ((msgs.take 10).map fun m =>
      (m.1, FetchOutcome.fail m.2))).1 hip hfc10
  have hrun := runPoll_append jobId
    ((msgs.take 10).map fun m => (m.1, FetchOutcome.fail m.2))
    [(mlast.1, FetchOutcome.fail mlast.2)] s
  refine ⟨?_, hterm0, ?_, ?_⟩
  · rw [hfull, hrun, terminalEvents_append, hterm0]
    simp only [runPoll, hlasttick]
    simp [terminalEvents, PollEvent.isTerminal]
  · rw [hfull, hrun]
    simp only [runPoll, hlasttick]
  · rw [hfull, hrun]
    apply fetchCount_not_polling
    simp only [runPoll, hlasttick]

/-- Witness for C2: eleven concrete failed ticks from the initial poller
state. -/
theorem pollStatus_connection_lost_after_eleven_failures_witness :
    terminalEvents
        (runPoll "abc123" initialPoller
          ((List.replicate 11 ("t", "boom")).map fun m =>
            (m.1, FetchOutcome.fail m.2))).2
        = [.failure "Connection lost. Please try again."]
    ∧ terminalEvents
        (runPoll "abc123" initialPoller
          (((List.replicate 11 ("t", "boom")).take 10).map fun m =>
            (m.1, FetchOutcome.fail m.2))).2 = []
    ∧ (runPoll "abc123" initialPoller
          ((List.replicate 11 ("t", "boom")).map fun m =>
            (m.1, FetchOutcome.fail m.2))).1.isPolling = false
    ∧ fetchCount "abc123"
        (runPoll "abc123" initialPoller
          ((List.replicate 11 ("t", "boom")).map fun m =>
            (m.1, FetchOutcome.fail m.2))).1
        [("t", FetchOutcome.fail "boom")] = 0 :=
  pollStatus_connection_lost_after_eleven_failures "abc123" initialPoller
    (List.replicate 11 ("t", "boom")) [("t", FetchOutcome.fail "boom")]
    rfl rfl (by decide)

/-- Claim C3: a poll tick that parses `COMPLETED` with a `null` result URL
invokes the failure callback with the no-URL message as its only terminal
callback, stops polling, records no result URL, and fires no success
callback. -/
theorem pollStatus_completed_without_url_fails
    (now jobId progress : String) (s : PollerState)
    (hpoll : s.isPolling = true) :
    terminalEvents (tick now jobId s (.ok { status := "COMPLETED", progress := progress, video_url := none })).2
      = [.failure "Video generation completed but no URL provided"]
    ∧ (tick now jobId s (.ok { status := "COMPLETED", progress := progress, video_url := none })).1.isPolling = false
    ∧ (tick now jobId s (.ok { status := "COMPLETED", progress := progress, video_url := none })).2.filter PollEvent.isSessionVideoUrl = [] := by
  by_cases hkey : statusKey { status := "COMPLETED", progress := progress, video_url := none } = s.lastStatus <;>
    refine ⟨?_, ?_, ?_⟩ <;>
      simp_all [tick, hpoll, processResponse, statusKey, terminalEvents,
        PollEvent.isTerminal, PollEvent.isSessionVideoUrl]

/-- Witness for C3 at a concrete tick. -/
theorem pollStatus_completed_without_url_fails_witness :
    terminalEvents (tick "t" "abc123" initialPoller
        (.ok { status := "COMPLETED", progress := "done", video_url := none })).2
      = [.failure "Video generation completed but no URL provided"]
    ∧ (tick "t" "abc123" initialPoller
        (.ok { status := "COMPLETED", progress := "done", video_url := none })).1.isPolling = false
    ∧ (tick "t" "abc123" initialPoller
        (.ok { status := "COMPLETED", progress := "done", video_url := none })).2.filter PollEvent.isSessionVideoUrl = [] :=
  pollStatus_completed_without_url_fails "t" "abc123" "done"
    initialPoller rfl

/-- Counterexample to claim C4 as stated: a single successful tick whose
status is `FAILED` appends two timeline entries (the deduplicated status
entry and the extra FAILED entry of the terminal branch), not exactly one. -/
theorem pollStatus_failed_tick_appends_two_entries :
    timelineCount (tick "t" "abc123" initialPoller
        (.ok { status := "FAILED", progress := "boom", video_url := none })).2 = 2
    ∧ timelineCount (tick "t" "abc123" initialPoller
        (.ok { status := "FAILED", progress := "boom", video_url := none })).2 ≠ 1 := by
  decide

/-- Claim C4 (amended): over a nonempty run of successful poll ticks all
carrying the identical (status, progress) pair, new with respect to the
last-emitted key, exactly one timeline entry is appended when the status is
not `FAILED`; when it is `FAILED` the first tick appends two (the
deduplicated entry plus the terminal FAILED entry) and stops the run. -/
theorem pollStatus_identical_ticks_append_once
    (jobId st p : String) (s : PollerState)
    (ticks : List (String × Option String))
    (hpoll : s.isPolling = true) (hlast : s.lastStatus ≠ st ++ "-" ++ p)
    (hne : ticks ≠ []) :
    timelineCount (runPoll jobId s (ticks.map fun t =>
        (t.1, FetchOutcome.ok { status := st, progress := p, video_url := t.2 }))).2
      = if st = "FAILED" then 2 else 1 := by
  obtain ⟨t0, rest, rfl⟩ := List.exists_cons_of_ne_nil hne
  obtain ⟨hcnt, hkeep, hstop⟩ := tick_new_key t0.1 jobId st p t0.2 s hpoll hlast
  simp only [List.map_cons, runPoll, timelineCount_append]
  rw [hcnt]
  by_cases hF : st = "FAILED"
  · rw [runPoll_not_polling jobId _ (hstop hF), if_pos hF]
    rfl
  · rw [runPoll_same_key_no_timeline jobId st p hF rest _ hkeep, if_neg hF]

/-- Witness for C4 (amended) at three identical QUEUED ticks. -/
theorem pollStatus_identical_ticks_append_once_witness :
    timelineCount (runPoll "abc123" initialPoller
        (([("t1", none), ("t2", none), ("t3", none)] :
            List (String × Option String)).map fun t =>
          (t.1, FetchOutcome.ok { status := "QUEUED", progress := "", video_url := t.2 }))).2
      = if ("QUEUED" : String) = "FAILED" then 2 else 1 :=
  pollStatus_identical_ticks_append_once "abc123" "QUEUED" "" initialPoller
    [("t1", none), ("t2", none), ("t3", none)] rfl (by decide) (by decide)

/-- Claim C10: the dedup key concatenates status and progress with a hyphen,
so the distinct pairs ("A-B", "C") and ("A", "B-C") share one key, and after
a poll reporting the first, a poll reporting the second appends no timeline
entry even though the (status, progress) pair changed. -/
theorem pollStatus_statusKey_collision_skips_append :
    ((("A-B" : String), ("C" : String)) ≠ (("A" : String), ("B-C" : String)))
    ∧ statusKey { status := "A-B", progress := "C", video_url := none }
        = statusKey { status := "A", progress := "B-C", video_url := none }
    ∧ timelineCount (tick "t1" "abc123" initialPoller
        (.ok { status := "A-B", progress := "C", video_url := none })).2 = 1
    ∧ timelineCount (tick "t2" "abc123"
        (tick "t1" "abc123" initialPoller
          (.ok { status := "A-B", progress := "C", video_url := none })).1
        (.ok { status := "A", progress := "B-C", video_url := none })).2
      = 0 := by
  decide

/-- Claim C1 (contradicted by the code): `pollStatus` re-checks nothing
after its `await`, so when a fetch is still in flight while a later fetch
completes the job, the late continuation runs the `COMPLETED` branch again
and `onSuccess` fires twice for the same job.  The schedule below is
realizable: the tick-0 fetch is slow, the tick-1 fetch returns `COMPLETED`
first, then the tick-0 response arrives. -/
theorem pollStatus_late_response_double_success :
    (asyncRun "abc123" initialAsync
        [.issue 0, .issue 1,
          .resolve 1 "t1" (.ok { status := "COMPLETED", progress := "done", video_url := some "https://x/video.mp4" }),
          .resolve 0 "t2" (.ok { status := "COMPLETED", progress := "done", video_url := some "https://x/video.mp4" })]).map
        (fun run => terminalEvents run.2)
      = some [.success "https://x/video.mp4",
          .success "https://x/video.mp4"] := by
  decide

/-- Claim C7 (contradicted by the code): `setInterval` fires `pollStatus`
unconditionally, so a second fetch starts while the first is still
outstanding whenever a response takes longer than the 3000 ms interval: the
schedule issue-0 then issue-1 (no response yet) is realizable and leaves two
requests in flight. -/
theorem pollStatus_overlapping_inflight_requests :
    (asyncRun "abc123" initialAsync [.issue 0, .issue 1]).map
        (fun run => inFlightCount run.1) = some 2 := by
  decide

end AWSVideoGen
